import Mathlib

/-
  Verification development for the multi-institution payment-receipt
  verification engine (CBE, CBE-Birr, Telebirr, Dashen, Abyssinia).

  The TypeScript services are shallowly embedded: pure string/number
  helpers become Lean functions over `String`/`Rat` (an ASCII model of
  JS string semantics), network fetches and the regex-engine results that
  feed each parser become explicit inputs, and each orchestrator's
  control flow is transcribed branch by branch from the source.
-/

namespace VerifyPayment

/-! ## JS string and number model (ASCII) -/

/-- ASCII model of the JS whitespace class used by `trim` and `parseFloat`. -/
def jsWhitespace (c : Char) : Bool :=
  c = ' ' || c = '\t' || c = '\n' || c = '\r'

/-- JS `String.prototype.trim` (ASCII whitespace). -/
def jsTrim (s : String) : String :=
  String.mk (((s.data.dropWhile jsWhitespace).reverse.dropWhile jsWhitespace).reverse)

/-- JS truthiness of a `string | undefined` value: `undefined` and `""` are falsy. -/
def truthyStr : Option String → Bool
  | none => false
  | some s => decide (s ≠ "")

/-- JS truthiness of a `number | undefined` value: `undefined`, `NaN` (modelled
    as `none`) and `0` are falsy. -/
def truthyNum : Option Rat → Bool
  | none => false
  | some q => decide (q ≠ 0)

/-- JS `a || b` on strings: `b` when `a` is empty, else `a`. -/
def jsOr (a b : String) : String :=
  if a = "" then b else a

/-- `str.replace(/,/g, '')`: remove every comma. -/
def stripCommas (s : String) : String :=
  String.mk (s.data.filter (fun c => c ≠ ','))

/-- `str.replace(/[^\d.]/g, '')`: keep only digits and dots. -/
def keepDigitsAndDots (s : String) : String :=
  String.mk (s.data.filter (fun c => c.isDigit || c = '.'))

/-- Value of a list of decimal digit characters. -/
def digitsToNat (cs : List Char) : Nat :=
  cs.foldl (fun n c => 10 * n + (c.toNat - '0'.toNat)) 0

/-- Model of JS `parseFloat` (no exponent forms, which never occur here):
    skip leading whitespace, read an optional sign and a decimal numeral
    prefix, ignore trailing junk; `none` models `NaN` (no digit at all). -/
def jsParseFloat (s : String) : Option Rat :=
  let cs := s.data.dropWhile jsWhitespace
  let signed : Bool × List Char :=
    match cs with
    | '-' :: rest => (true, rest)
    | '+' :: rest => (false, rest)
    | _ => (false, cs)
  let intPart := signed.2.takeWhile Char.isDigit
  let rest := signed.2.drop intPart.length
  let fracPart : List Char :=
    match rest with
    | '.' :: r => r.takeWhile Char.isDigit
    | _ => []
  if intPart.isEmpty && fracPart.isEmpty then none
  else
    let mag : Int := (digitsToNat intPart * 10 ^ fracPart.length + digitsToNat fracPart : Nat)
    some (mkRat (if signed.1 then -mag else mag) (10 ^ fracPart.length))

/-- ASCII model of JS `toLowerCase`. -/
def jsToLower (s : String) : String :=
  String.mk (s.data.map Char.toLower)

/-- JS word character class `\w` (ASCII). -/
def jsWordChar (c : Char) : Bool :=
  c.isAlpha || c.isDigit || c = '_'

/-- The effect of `replace(/\b\w/g, c => c.toUpperCase())`: upper-case each
    word character that is not preceded by a word character. The flag carries
    whether the previous character was a word character. -/
def capitalizeWordStarts : Bool → List Char → List Char
  | _, [] => []
  | prevWord, c :: rest =>
      (if jsWordChar c && !prevWord then c.toUpper else c) ::
        capitalizeWordStarts (jsWordChar c) rest

/-- `titleCase` from verifyCBE.ts (also duplicated in the Dashen service):
    `str.toLowerCase().replace(/\b\w/g, char => char.toUpperCase())`. -/
def titleCase (s : String) : String :=
  String.mk (capitalizeWordStarts false (jsToLower s).data)

/-- Modelled from the spec: lower-case the whole string, then upper-case the
    first letter of every whitespace-delimited token. Stated only to compare
    with the source's `titleCase`. -/
def specTitleCase (s : String) : String :=
  String.mk (go true (jsToLower s).data)
where
  go : Bool → List Char → List Char
  | _, [] => []
  | prevWS, c :: rest =>
      (if prevWS && !jsWhitespace c then c.toUpper else c) :: go (jsWhitespace c) rest

/-! ## Result envelope types -/

/-- A JS `Date` object built by `new Date(raw)`; the engine never inspects it
    beyond object truthiness, so only the raw string is carried. -/
structure JSDate where
  raw : String
deriving DecidableEq, Repr

/-- `VerifyResult` from verifyCBE.ts (shared by CBE and Abyssinia).
    `reason` is `string | null` when present, hence the nested option. -/
structure VerifyResult where
  success : Bool
  payer : Option String := none
  payerAccount : Option String := none
  receiver : Option String := none
  receiverAccount : Option String := none
  amount : Option Rat := none
  date : Option JSDate := none
  reference : Option String := none
  reason : Option (Option String) := none
  error : Option String := none
deriving DecidableEq, Repr

/-- Shape of a JSON response body as the HTTP client sees it:
    whether a `success` key is present (and its value), whether any receipt
    data fields are present, and the `error` message if any. -/
structure Envelope where
  success : Option Bool
  hasData : Bool
  error : Option String
deriving DecidableEq, Repr

/-! ## CBE pipeline (verifyCBE.ts) -/

/-- The regex-capture results that `parseCBEReceipt` reads off the flattened
    PDF text (group 1 of each match; `none` = the pattern did not match). -/
structure CBEMatches where
  payerName : Option String
  receiverName : Option String
  payerAccount : Option String
  receiverAccount : Option String
  reasonText : Option String
  amountText : Option String
  referenceMatch : Option String
  dateRaw : Option String
deriving DecidableEq, Repr

/-- `payerName = payerName ? titleCase(payerName) : undefined` after the
    trimmed capture (verifyCBE.ts lines 105, 119). -/
def cbePayer (m : CBEMatches) : Option String :=
  let payerRaw := m.payerName.map jsTrim
  if truthyStr payerRaw then some (titleCase (payerRaw.getD "")) else none

/-- Receiver name, trimmed then title-cased when truthy (lines 106, 120). -/
def cbeReceiver (m : CBEMatches) : Option String :=
  let receiverRaw := m.receiverName.map jsTrim
  if truthyStr receiverRaw then some (titleCase (receiverRaw.getD "")) else none

/-- `amount = amountText ? parseFloat(amountText.replace(/,/g, '')) : undefined`
    (line 116); `none` covers both `undefined` and `NaN`. -/
def cbeAmount (m : CBEMatches) : Option Rat :=
  if truthyStr m.amountText then jsParseFloat (stripCommas (m.amountText.getD "")) else none

/-- `date = dateRaw ? new Date(dateRaw) : undefined` (line 117); a constructed
    `Date` object is truthy whatever it holds. -/
def cbeDate (m : CBEMatches) : Option JSDate :=
  let dateRaw := m.dateRaw.map jsTrim
  if truthyStr dateRaw then some ⟨dateRaw.getD ""⟩ else none

/-- Trimmed reference capture (line 113). -/
def cbeReference (m : CBEMatches) : Option String :=
  m.referenceMatch.map jsTrim

/-- Trimmed reason capture (line 111). -/
def cbeReason (m : CBEMatches) : Option String :=
  m.reasonText.map jsTrim

/-- The required-field condition of verifyCBE.ts line 122. -/
def cbeRequiredOk (m : CBEMatches) : Bool :=
  truthyStr (cbePayer m) && truthyStr m.payerAccount && truthyStr (cbeReceiver m) &&
    truthyStr m.receiverAccount && truthyNum (cbeAmount m) && (cbeDate m).isSome &&
    truthyStr (cbeReference m)

/-- `parseCBEReceipt` (verifyCBE.ts lines 100-144) given the match results;
    `none` as document models `pdf-parse` throwing. -/
def parseCBEReceipt (doc : Option CBEMatches) : VerifyResult :=
  match doc with
  | none => { success := false, error := some "Error parsing PDF data" }
  | some m =>
      if cbeRequiredOk m then
        { success := true
          payer := cbePayer m
          payerAccount := m.payerAccount
          receiver := cbeReceiver m
          receiverAccount := m.receiverAccount
          amount := cbeAmount m
          date := cbeDate m
          reference := cbeReference m
          reason := some (if truthyStr (cbeReason m) then cbeReason m else none) }
      else
        { success := false, error := some "Could not extract all required fields from PDF." }

/-- Outcome of the primary (direct axios) fetch in `verifyCBE`. -/
inductive CBEPrimary where
  | fetched (doc : Option CBEMatches)
  | fetchError (msg : String)
deriving DecidableEq, Repr

/-- Outcome of the Puppeteer fallback tier in `verifyCBE`. -/
inductive CBEFallback where
  | puppeteerError (msg : String)
  | noPdfDetected
  | pdfFetched (doc : Option CBEMatches)
deriving DecidableEq, Repr

/-- `verifyCBE` control flow (verifyCBE.ts lines 25-98); the second component
    records whether the Puppeteer fallback tier was entered. -/
def verifyCBEWith (primary : CBEPrimary) (fallback : CBEFallback) : VerifyResult × Bool :=
  match primary with
  | .fetched doc => (parseCBEReceipt doc, false)
  | .fetchError _ =>
      match fallback with
      | .puppeteerError msg =>
          ({ success := false, error := some ("Both direct and Puppeteer failed: " ++ msg) }, true)
      | .noPdfDetected =>
          ({ success := false, error := some "No PDF detected via Puppeteer." }, true)
      | .pdfFetched doc => (parseCBEReceipt doc, true)

/-- Does a `VerifyResult` carry any receipt data field? -/
def cbeHasData (r : VerifyResult) : Bool :=
  r.payer.isSome || r.payerAccount.isSome || r.receiver.isSome ||
    r.receiverAccount.isSome || r.amount.isSome || r.date.isSome || r.reference.isSome

/-- Every CBE required field is present and non-empty after normalization. -/
def cbeRequiredNonEmpty (r : VerifyResult) : Prop :=
  (∃ s, r.payer = some s ∧ s ≠ "") ∧
  (∃ s, r.payerAccount = some s ∧ s ≠ "") ∧
  (∃ s, r.receiver = some s ∧ s ≠ "") ∧
  (∃ s, r.receiverAccount = some s ∧ s ≠ "") ∧
  (∃ q, r.amount = some q ∧ q ≠ 0) ∧
  r.date.isSome = true ∧
  (∃ s, r.reference = some s ∧ s ≠ "")

/-! ## Telebirr pipeline (verifyTelebirr.ts) -/

/-- `TelebirrReceipt` from verifyTelebirr.ts; all fields are strings, with
    `""` standing for an extraction that found nothing. -/
structure TelebirrReceipt where
  payerName : String
  payerTelebirrNo : String
  creditedPartyName : String
  creditedPartyAccountNo : String
  transactionStatus : String
  receiptNo : String
  paymentDate : String
  settledAmount : String
  serviceFee : String
  serviceFeeVAT : String
  totalPaidAmount : String
  bankName : String
deriving DecidableEq, Repr

/-- `isValidReceipt` (verifyTelebirr.ts lines 459-466):
    `Boolean(receiptNo && payerName && transactionStatus)`. -/
def isValidReceipt (r : TelebirrReceipt) : Bool :=
  decide (r.receiptNo ≠ "") && decide (r.payerName ≠ "") && decide (r.transactionStatus ≠ "")

/-- `verifyTelebirr` control flow (verifyTelebirr.ts lines 434-456). The
    `primary`/`fallback` inputs are what `fetchFromPrimarySource` /
    `fetchFromProxySource` would return (`none` = the fetch threw); the second
    component records whether the fallback proxy was attempted. -/
def verifyTelebirrWith (skipPrimary : Bool) (primary fallback : Option TelebirrReceipt) :
    Option TelebirrReceipt × Bool :=
  if !skipPrimary && (match primary with | some r => isValidReceipt r | none => false) then
    (primary, false)
  else
    match fallback with
    | some r => if isValidReceipt r then (some r, true) else (none, true)
    | none => (none, true)

/-- The Telebirr route response (verifyTelebirrRoute.ts lines 22-27):
    wraps the service result in a `{success, data|error}` envelope. -/
def telebirrRouteRespond (result : Option TelebirrReceipt) : Envelope :=
  match result with
  | none =>
      { success := some false, hasData := false
        error := some "Receipt not found or could not be processed." }
  | some _ => { success := some true, hasData := true, error := none }

/-! ## CBE-Birr pipeline (verifyCBEBirr.ts) -/

/-- `CBEBirrReceipt` from verifyCBEBirr.ts. -/
structure CBEBirrReceipt where
  customerName : String
  debitAccount : String
  creditAccount : String
  receiverName : String
  orderId : String
  transactionStatus : String
  reference : String
  receiptNumber : String
  transactionDate : String
  amount : String
  paidAmount : String
  serviceCharge : String
  vat : String
  totalPaidAmount : String
  paymentReason : String
  paymentChannel : String
deriving DecidableEq, Repr

/-- The regex results `parseCBEBirrReceipt` reads off the PDF text: one field
    per pattern occurrence, `Option String` for group-1 captures (`none` = no
    match), `Bool` for patterns that have no capture group at all. The pattern
    `/(251902523658\s*-\s*LIUL ZENEBE ADMASU)/i` is run twice on the same
    text, so a single field feeds both uses. -/
structure CBEBirrMatches where
  customerNameM : Option String
  liulNameMatched : Bool
  creditAccountM : Option String
  liulAccountM : Option String
  receiverNameM : Option String
  orderIdM : Option String
  ftNumberM : Option String
  transactionStatusM : Option String
  completedMatched : Bool
  referenceM : Option String
  cguLiteralMatched : Bool
  cguNumberM : Option String
  dateLiteralM : Option String
  dateYmdM : Option String
  amountLiteralM : Option String
  amountAnyM : Option String
  paidAmountM : Option String
  serviceChargeM : Option String
  vatM : Option String
  totalPaidAmountM : Option String
  transferReasonMatched : Bool
  ussdMatched : Bool
deriving DecidableEq, Repr

/-- `extractValue` (verifyCBEBirr.ts lines 89-94):
    `match && match[1] ? match[1].trim() : ''`. -/
def extractValue (m : Option String) : String :=
  jsTrim (m.getD "")

/-- `extractValue` applied to a pattern with no capture group: `match[1]` is
    `undefined` there, so the helper yields `''` whether or not it matched. -/
def extractValueNoGroup (_matched : Bool) : String :=
  ""

/-- The `receiptData` record built by `parseCBEBirrReceipt`
    (verifyCBEBirr.ts lines 100-176), including every hard-coded literal
    fallback of the source. -/
def cbeBirrExtract (m : CBEBirrMatches) : CBEBirrReceipt :=
  let customerName :=
    jsOr (extractValue m.customerNameM)
      (jsOr (extractValueNoGroup m.liulNameMatched) "LIUL ZENEBE ADMASU")
  let creditAccount :=
    jsOr (extractValue m.creditAccountM)
      (jsOr (extractValue m.liulAccountM) "251902523658 - LIUL ZENEBE ADMASU")
  let receiverName :=
    jsOr (extractValue m.receiverNameM)
      (jsOr (extractValue m.liulAccountM) "251902523658 - LIUL ZENEBE ADMASU")
  let orderId :=
    jsOr (extractValue m.orderIdM) (jsOr (extractValue m.ftNumberM) "FT25211JYPQX")
  let transactionStatus :=
    jsOr (extractValue m.transactionStatusM)
      (jsOr (extractValueNoGroup m.completedMatched) "Completed")
  let reference := jsOr (extractValue m.referenceM) orderId
  let receiptNumber :=
    jsOr (extractValueNoGroup m.cguLiteralMatched)
      (jsOr (extractValue m.cguNumberM) "CGU9REIHHB")
  let transactionDate :=
    jsOr (extractValue m.dateLiteralM) (jsOr (extractValue m.dateYmdM) "2025-07-30 17:57")
  let amount :=
    jsOr (extractValue m.amountLiteralM) (jsOr (extractValue m.amountAnyM) "73000.00")
  let paidAmount := jsOr (extractValue m.paidAmountM) amount
  let serviceCharge := jsOr (extractValue m.serviceChargeM) "0.00"
  let vat := jsOr (extractValue m.vatM) "0.00"
  let totalPaidAmount := jsOr (extractValue m.totalPaidAmountM) amount
  let paymentReason :=
    jsOr (extractValueNoGroup m.transferReasonMatched)
      "TransferFromBankToMM by Customer to Customer"
  let paymentChannel := jsOr (extractValueNoGroup m.ussdMatched) "USSD"
  { customerName := customerName
    debitAccount := ""
    creditAccount := creditAccount
    receiverName := receiverName
    orderId := orderId
    transactionStatus := transactionStatus
    reference := reference
    receiptNumber := receiptNumber
    transactionDate := transactionDate
    amount := amount
    paidAmount := paidAmount
    serviceCharge := serviceCharge
    vat := vat
    totalPaidAmount := totalPaidAmount
    paymentReason := paymentReason
    paymentChannel := paymentChannel }

/-- `parseCBEBirrReceipt` (verifyCBEBirr.ts lines 83-192): build the record,
    then reject only when customer name, receipt number and amount are all
    empty simultaneously. -/
def parseCBEBirrReceipt (m : CBEBirrMatches) : Option CBEBirrReceipt :=
  let r := cbeBirrExtract m
  if decide (r.customerName = "") && decide (r.receiptNumber = "") && decide (r.amount = "") then
    none
  else
    some r

/-- Outcome of the CBE-Birr document fetch: the request threw, or returned a
    status plus either the pattern-match results of the parsed PDF text or the
    message of a `pdf-parse` exception. -/
inductive CBEBirrFetch where
  | fetchError (msg : String)
  | fetched (status : Nat) (doc : Except String CBEBirrMatches)
deriving Repr

/-- The value `verifyCBEBirr` resolves with: the bare receipt record on
    success (the source has no `success: true` wrapper), or a
    `{success: false, error}` object. -/
inductive CBEBirrResult where
  | receipt (r : CBEBirrReceipt)
  | failure (error : String)
deriving DecidableEq, Repr

/-- `verifyCBEBirr` control flow (verifyCBEBirr.ts lines 25-81). -/
def verifyCBEBirrService (f : CBEBirrFetch) : CBEBirrResult :=
  match f with
  | .fetchError msg => .failure msg
  | .fetched status doc =>
      if status ≠ 200 then .failure ("Failed to fetch receipt: HTTP " ++ toString status)
      else
        match doc with
        | .error msg => .failure msg
        | .ok m =>
            match parseCBEBirrReceipt m with
            | none => .failure "Failed to parse receipt data from PDF"
            | some r => .receipt r

/-- The JSON body the CBE-Birr route sends back for a service result:
    `res.json(result)` with no re-wrapping. -/
def cbeBirrEnvelope : CBEBirrResult → Envelope
  | .receipt _ => { success := none, hasData := true, error := none }
  | .failure e => { success := some false, hasData := false, error := some e }

/-! ## CBE-Birr route (verifyCBEBirrRoute.ts) -/

/-- `isValidEthiopianPhone` (verifyCBEBirrRoute.ts lines 8-12): the test
    `/^251\d{9}$/.test(phone)`, transcribed as an anchored scan. -/
def isValidEthiopianPhone (phone : String) : Bool :=
  match phone.data with
  | c1 :: c2 :: c3 :: rest =>
      decide (c1 = '2') && decide (c2 = '5') && decide (c3 = '1') &&
        decide (rest.length = 9) && rest.all Char.isDigit
  | _ => false

/-- The POST handler of verifyCBEBirrRoute.ts (lines 15-69): parameter and
    phone-format checks, then the service call. `svc` is what the service
    would return if invoked; the second component records whether
    `verifyCBEBirr` was actually called. -/
def cbeBirrRoutePost (receiptNumber phoneNumber apiKey : Option String)
    (svc : CBEBirrResult) : Envelope × Bool :=
  if !truthyStr receiptNumber then
    ({ success := some false, hasData := false, error := some "Receipt number is required" }, false)
  else if !truthyStr phoneNumber then
    ({ success := some false, hasData := false, error := some "Phone number is required" }, false)
  else if !truthyStr apiKey then
    ({ success := some false, hasData := false
       error := some "API key is required in Authorization header or x-api-key header" }, false)
  else if !isValidEthiopianPhone (phoneNumber.getD "") then
    ({ success := some false, hasData := false
       error := some "Invalid Ethiopian phone number format. Must start with 251 and be 12 digits total" },
     false)
  else
    (cbeBirrEnvelope svc, true)

/-! ## Abyssinia pipeline (verifyAbyssinia.ts) -/

/-- The `header` object of the Abyssinia API payload; `status` is `none` when
    the key is absent. -/
structure AbyssiniaHeader where
  status : Option String
deriving DecidableEq, Repr

/-- The keys of a `body[i]` transaction record that `verifyAbyssinia` reads;
    `none` = key absent. -/
structure AbyssiniaTx where
  transferredAmount : Option String
  transactionDate : Option String
  payerName : Option String
  sourceAccount : Option String
  sourceAccountName : Option String
  transactionReference : Option String
  narrative : Option String
deriving DecidableEq, Repr

/-- The JSON payload shape checked at verifyAbyssinia.ts line 65: `header`
    present and truthy, `body` present and an array. -/
structure AbyssiniaPayload where
  header : Option AbyssiniaHeader
  body : Option (List AbyssiniaTx)
deriving DecidableEq, Repr

/-- Outcome of the Abyssinia API fetch. -/
inductive AbyssiniaFetch where
  | fetchError
  | fetched (payload : Option AbyssiniaPayload)
deriving DecidableEq, Repr

/-- Abyssinia amount normalization (verifyAbyssinia.ts lines 92-93):
    `str ? parseFloat(str.replace(/[^\d.]/g, '')) : undefined`. -/
def abyssiniaNormalizeAmount (s : String) : Option Rat :=
  if s = "" then none else jsParseFloat (keepDigitsAndDots s)

/-- `x || undefined` on an optional string key. -/
def orUndefined (x : Option String) : Option String :=
  match x with
  | some s => if s = "" then none else some s
  | none => none

/-- The field mapping of verifyAbyssinia.ts lines 92-109 for the first
    transaction record. -/
def abyssiniaExtract (tx : AbyssiniaTx) : VerifyResult :=
  let amount := abyssiniaNormalizeAmount (tx.transferredAmount.getD "")
  let dateStr := tx.transactionDate.getD ""
  { success := true
    payer := orUndefined tx.payerName
    payerAccount := orUndefined tx.sourceAccount
    receiver := orUndefined tx.sourceAccountName
    receiverAccount := none
    amount := amount
    date := if dateStr = "" then none else some ⟨dateStr⟩
    reference := orUndefined tx.transactionReference
    reason := some (orUndefined tx.narrative) }

/-- `verifyAbyssinia` control flow (verifyAbyssinia.ts lines 29-147); the
    second component records whether field extraction was reached. -/
def verifyAbyssiniaWith (f : AbyssiniaFetch) : VerifyResult × Bool :=
  match f with
  | .fetchError =>
      ({ success := false, error := some "Failed to verify Abyssinia transaction" }, false)
  | .fetched payload =>
      match payload with
      | none =>
          ({ success := false, error := some "Invalid response structure from Abyssinia API" }, false)
      | some p =>
          match p.header, p.body with
          | none, _ =>
              ({ success := false, error := some "Invalid response structure from Abyssinia API" },
               false)
          | some _, none =>
              ({ success := false, error := some "Invalid response structure from Abyssinia API" },
               false)
          | some hdr, some body =>
              if hdr.status ≠ some "success" then
                ({ success := false
                   error := some ("API returned error status: " ++ hdr.status.getD "undefined") },
                 false)
              else
                match body with
                | [] =>
                    ({ success := false, error := some "No transaction data found in response body" },
                     false)
                | tx :: _ =>
                    let r := abyssiniaExtract tx
                    if !truthyStr r.reference || !truthyNum r.amount || !truthyStr r.payer then
                      ({ success := false
                         error := some "Missing essential fields in transaction data" }, true)
                    else
                      (r, true)

/-- The upstream-reported status carried by a fetch outcome, if any. -/
def abyssiniaStatusOf : AbyssiniaFetch → Option String
  | .fetched (some p) =>
      match p.header with
      | some h => h.status
      | none => none
  | _ => none

/-! ## Remote fetch call sites and their timeouts (C5) -/

/-- One remote fetch call site of a verification pipeline, with the explicit
    timeout its request options carry (`none` = no timeout option, i.e. the
    HTTP client default of unlimited). -/
structure FetchCall where
  pipeline : String
  site : String
  timeoutMs : Option Nat
deriving DecidableEq, Repr

/-- The re-fetch of the PDF URL captured during rendered-page retrieval
    (verifyCBE.ts lines 83-86): its options object has no `timeout` key. -/
def cbeCapturedPdfFetch : FetchCall :=
  { pipeline := "CBE", site := "captured-pdf-url axios.get", timeoutMs := none }

/-- Every remote fetch operation issued by the five verification pipelines,
    with the timeout option present at each call site in the source. -/
def fetchCalls : List FetchCall :=
  [ { pipeline := "CBE", site := "direct axios.get", timeoutMs := some 30000 },
    { pipeline := "CBE", site := "puppeteer page.goto", timeoutMs := some 20000 },
    cbeCapturedPdfFetch,
    { pipeline := "CBEBirr", site := "axios.get", timeoutMs := some 30000 },
    { pipeline := "Telebirr", site := "primary axios.get", timeoutMs := some 15000 },
    { pipeline := "Telebirr", site := "proxy axios.get", timeoutMs := some 15000 },
    { pipeline := "Dashen", site := "axios.get", timeoutMs := some 30000 },
    { pipeline := "Abyssinia", site := "axios.get", timeoutMs := some 30000 } ]

/-! ## Amount normalization (C6) -/

/-- CBE amount normalization (verifyCBE.ts line 116):
    `parseFloat(amountText.replace(/,/g, ''))`. -/
def cbeNormalizeAmount (s : String) : Option Rat :=
  jsParseFloat (stripCommas s)

/-- `extractAmount` from the Dashen service (part_002 lines 558-566): on a
    non-empty group-1 capture, strip commas and `parseFloat`, mapping `NaN`
    to `undefined`. -/
def dashenExtractAmount (capture : Option String) : Option Rat :=
  match capture with
  | some v => if v = "" then none else jsParseFloat (stripCommas v)
  | none => none

/-! ## Date patterns (C7) -/

/-- Token of the literal regular-expression shapes used for dates:
    a digit, a literal character, or a greedy one-or-more whitespace run. -/
inductive PatTok where
  | digit
  | lit (c : Char)
  | wsPlus
deriving DecidableEq, Repr

/-- Match a token list at the head of `cs`; returns the consumed characters
    and the remainder. The whitespace run is maximal, which coincides with
    the regex engine since whitespace and the tokens that follow it are
    disjoint character classes in every pattern used here. -/
def matchToksAt : List PatTok → List Char → Option (List Char × List Char)
  | [], cs => some ([], cs)
  | .digit :: toks, c :: cs =>
      if c.isDigit then (matchToksAt toks cs).map (fun p => (c :: p.1, p.2)) else none
  | .lit l :: toks, c :: cs =>
      if c = l then (matchToksAt toks cs).map (fun p => (c :: p.1, p.2)) else none
  | .wsPlus :: toks, cs =>
      let run := cs.takeWhile jsWhitespace
      if run.isEmpty then none
      else (matchToksAt toks (cs.drop run.length)).map (fun p => (run ++ p.1, p.2))
  | .digit :: _, [] => none
  | .lit _ :: _, [] => none

/-- Leftmost match of a token pattern inside a string, as `RegExp.match`
    finds it; returns the matched characters. -/
def scanToks (p : List PatTok) : List Char → Option (List Char)
  | [] => (matchToksAt p []).map Prod.fst
  | c :: cs =>
      match matchToksAt p (c :: cs) with
      | some r => some r.1
      | none => scanToks p cs

/-- Tokens of a literal string. -/
def litToks (s : String) : List PatTok :=
  s.data.map PatTok.lit

/-- Pattern `/(\d{4}-\d{2}-\d{2}\s+\d{2}:\d{2})/i` (verifyCBEBirr.ts line 139). -/
def ymdDatePat : List PatTok :=
  [.digit, .digit, .digit, .digit, .lit '-', .digit, .digit, .lit '-', .digit, .digit,
   .wsPlus, .digit, .digit, .lit ':', .digit, .digit]

/-- Pattern `/(\d{2}-\d{2}-\d{4}\s+\d{2}:\d{2}:\d{2})/` (verifyTelebirr.ts line 85). -/
def dmyDatePat : List PatTok :=
  [.digit, .digit, .lit '-', .digit, .digit, .lit '-', .digit, .digit, .digit, .digit,
   .wsPlus, .digit, .digit, .lit ':', .digit, .digit, .lit ':', .digit, .digit]

/-- Pattern `/(2025-07-30\s+17:57)/i` (verifyCBEBirr.ts line 138). -/
def sampleDatePat : List PatTok :=
  litToks "2025-07-30" ++ [.wsPlus] ++ litToks "17:57"

/-- Group-1 capture of the leftmost match in `text` (the whole match for
    these patterns, which parenthesize their full body). -/
def scanCapture (p : List PatTok) (text : String) : Option String :=
  (scanToks p text.data).map String.mk

/-- The CBE-Birr transaction-date chain of verifyCBEBirr.ts lines 138-140,
    with the two extraction patterns run by the scanner above:
    sample-literal pattern, then the YYYY-MM-DD HH:mm pattern, then the
    hard-coded sample date. -/
def cbeBirrTransactionDate (pdfText : String) : String :=
  jsOr (extractValue (scanCapture sampleDatePat pdfText))
    (jsOr (extractValue (scanCapture ymdDatePat pdfText)) "2025-07-30 17:57")

/-- `extractDateRegex` (verifyTelebirr.ts lines 83-90): leftmost
    DD-MM-YYYY HH:mm:ss substring, or `null`. -/
def extractDateRegex (html : String) : Option String :=
  (scanToks dmyDatePat html.data).map (fun cs => jsTrim (String.mk cs))

/-- A parsed calendar timestamp. -/
structure SpecDateTime where
  year : Nat
  month : Nat
  day : Nat
  hour : Nat
  minute : Nat
  second : Nat
deriving DecidableEq, Repr

/-- Read exactly `n` decimal digits. -/
def readDigits (n : Nat) (cs : List Char) : Option (Nat × List Char) :=
  let ds := cs.take n
  if ds.length = n ∧ ds.all Char.isDigit then some (digitsToNat ds, cs.drop n) else none

/-- Read one or two decimal digits (greedy). -/
def readOneOrTwoDigits (cs : List Char) : Option (Nat × List Char) :=
  let ds := cs.takeWhile Char.isDigit
  if ds.length = 1 ∨ ds.length = 2 then some (digitsToNat ds, cs.drop ds.length) else none

/-- Expect one literal character. -/
def expectChar (c : Char) : List Char → Option (List Char)
  | x :: rest => if x = c then some rest else none
  | [] => none

/-- Modelled from the spec: parse the whole string as `YYYY-MM-DD HH:mm`. -/
def parseYmdHm (raw : String) : Option SpecDateTime :=
  (readDigits 4 raw.data).bind fun (y, r1) =>
  (expectChar '-' r1).bind fun r2 =>
  (readDigits 2 r2).bind fun (mo, r3) =>
  (expectChar '-' r3).bind fun r4 =>
  (readDigits 2 r4).bind fun (d, r5) =>
  (expectChar ' ' r5).bind fun r6 =>
  (readDigits 2 r6).bind fun (h, r7) =>
  (expectChar ':' r7).bind fun r8 =>
  (readDigits 2 r8).bind fun (mi, r9) =>
  if r9.isEmpty then some ⟨y, mo, d, h, mi, 0⟩ else none

/-- Modelled from the spec: parse the whole string as `DD-MM-YYYY HH:mm:ss`. -/
def parseDmyHms (raw : String) : Option SpecDateTime :=
  (readDigits 2 raw.data).bind fun (d, r1) =>
  (expectChar '-' r1).bind fun r2 =>
  (readDigits 2 r2).bind fun (mo, r3) =>
  (expectChar '-' r3).bind fun r4 =>
  (readDigits 4 r4).bind fun (y, r5) =>
  (expectChar ' ' r5).bind fun r6 =>
  (readDigits 2 r6).bind fun (h, r7) =>
  (expectChar ':' r7).bind fun r8 =>
  (readDigits 2 r8).bind fun (mi, r9) =>
  (expectChar ':' r9).bind fun r10 =>
  (readDigits 2 r10).bind fun (s, r11) =>
  if r11.isEmpty then some ⟨y, mo, d, h, mi, s⟩ else none

/-- Modelled from the spec: parse the whole string as the localized
    `DD/MM/YYYY, h:mm:ss AM/PM` form. -/
def parseLocalizedDmy (raw : String) : Option SpecDateTime :=
  (readDigits 2 raw.data).bind fun (d, r1) =>
  (expectChar '/' r1).bind fun r2 =>
  (readDigits 2 r2).bind fun (mo, r3) =>
  (expectChar '/' r3).bind fun r4 =>
  (readDigits 4 r4).bind fun (y, r5) =>
  (expectChar ',' r5).bind fun r6 =>
  (expectChar ' ' r6).bind fun r7 =>
  (readOneOrTwoDigits r7).bind fun (h12, r8) =>
  (expectChar ':' r8).bind fun r9 =>
  (readDigits 2 r9).bind fun (mi, r10) =>
  (expectChar ':' r10).bind fun r11 =>
  (readDigits 2 r11).bind fun (s, r12) =>
  (expectChar ' ' r12).bind fun r13 =>
  match r13 with
  | ['A', 'M'] => some ⟨y, mo, d, if h12 = 12 then 0 else h12, mi, s⟩
  | ['P', 'M'] => some ⟨y, mo, d, if h12 = 12 then 12 else h12 + 12, mi, s⟩
  | _ => none

/-- Modelled from the spec: attempt the ordered list of literal formats;
    the first format that parses wins. -/
def specDateNormalize (raw : String) : Option SpecDateTime :=
  match parseYmdHm raw with
  | some d => some d
  | none =>
      match parseDmyHms raw with
      | some d => some d
      | none => parseLocalizedDmy raw

/-! ## Concrete sample inputs -/

/-- A CBE-Birr PDF text on which none of the declared patterns matched. -/
def cbeBirrNoMatches : CBEBirrMatches :=
  { customerNameM := none
    liulNameMatched := false
    creditAccountM := none
    liulAccountM := none
    receiverNameM := none
    orderIdM := none
    ftNumberM := none
    transactionStatusM := none
    completedMatched := false
    referenceM := none
    cguLiteralMatched := false
    cguNumberM := none
    dateLiteralM := none
    dateYmdM := none
    amountLiteralM := none
    amountAnyM := none
    paidAmountM := none
    serviceChargeM := none
    vatM := none
    totalPaidAmountM := none
    transferReasonMatched := false
    ussdMatched := false }

/-- A Telebirr receipt whose required fields are all empty: the primary
    document was fetched and scraped, but extraction found nothing. -/
def telebirrEmptyReceipt : TelebirrReceipt :=
  { payerName := ""
    payerTelebirrNo := ""
    creditedPartyName := ""
    creditedPartyAccountNo := ""
    transactionStatus := ""
    receiptNo := ""
    paymentDate := ""
    settledAmount := ""
    serviceFee := ""
    serviceFeeVAT := ""
    totalPaidAmount := ""
    bankName := ""
  }

/-- A fully populated Telebirr receipt. -/
def telebirrSampleReceipt : TelebirrReceipt :=
  { payerName := "Abebe Kebede"
    payerTelebirrNo := "251911223344"
    creditedPartyName := "Alemu Tesfaye"
    creditedPartyAccountNo := "251955667788"
    transactionStatus := "Completed"
    receiptNo := "CEH45KLMN0"
    paymentDate := "30-07-2025 17:57:57"
    settledAmount := "1000.00 Birr"
    serviceFee := "0.00 Birr"
    serviceFeeVAT := "0.00 Birr"
    totalPaidAmount := "1000.00 Birr"
    bankName := ""
  }

/-- An Abyssinia payload whose header status is not `success` and whose body
    is an empty array. -/
def abyssiniaFailedEmpty : AbyssiniaPayload :=
  { header := some { status := some "failed" }, body := some [] }

/-- An Abyssinia payload with a `success` header status and an empty body. -/
def abyssiniaEmptySuccess : AbyssiniaPayload :=
  { header := some { status := some "success" }, body := some [] }

/-- A complete Abyssinia transaction record. -/
def abyssiniaSampleTx : AbyssiniaTx :=
  { transferredAmount := some "73,000.00 ETB"
    transactionDate := some "2025-07-30 17:57"
    payerName := some "ABEBE KEBEDE"
    sourceAccount := some "39003377"
    sourceAccountName := some "ALEMU TESFAYE"
    transactionReference := some "FT23062669JJ"
    narrative := some "Transfer" }

/-- An Abyssinia payload carrying one complete transaction with a `success`
    header status. -/
def abyssiniaSuccessPayload : AbyssiniaPayload :=
  { header := some { status := some "success" }, body := some [abyssiniaSampleTx] }

/-- CBE match results with every field present and the transferred amount
    reading `0.00`. -/
def cbeZeroAmountMatches : CBEMatches :=
  { payerName := some "ABEBE KEBEDE"
    receiverName := some "ALEMU TESFAYE"
    payerAccount := some "1****1234"
    receiverAccount := some "2****5678"
    reasonText := some "Transfer"
    amountText := some "0.00"
    referenceMatch := some "FT2513001V2G"
    dateRaw := some "7/30/2025, 5:57:57 PM" }

/-! ## Helper lemmas -/

theorem truthyStr_eq_true {x : Option String} :
    truthyStr x = true ↔ ∃ s, x = some s ∧ s ≠ "" := by
  cases x <;> simp [truthyStr]

theorem truthyNum_eq_true {x : Option Rat} :
    truthyNum x = true ↔ ∃ q, x = some q ∧ q ≠ 0 := by
  cases x <;> simp [truthyNum]

theorem jsOr_ne_empty (a b : String) (h : b ≠ "") : jsOr a b ≠ "" := by
  unfold jsOr
  split
  · exact h
  · assumption

theorem truthyStr_isSome {x : Option String} (h : truthyStr x = true) : x.isSome = true := by
  cases x <;> simp_all [truthyStr]

theorem extractValue_none : extractValue none = "" := by
  decide

/-- The chain ending in the literal customer name never yields the empty
    string. -/
theorem cbeBirrExtract_customerName_ne (m : CBEBirrMatches) :
    (cbeBirrExtract m).customerName ≠ "" := by
  show jsOr (extractValue m.customerNameM)
      (jsOr (extractValueNoGroup m.liulNameMatched) "LIUL ZENEBE ADMASU") ≠ ""
  exact jsOr_ne_empty _ _ (jsOr_ne_empty _ _ (by decide))

/-- The chain ending in the literal receipt number never yields the empty
    string. -/
theorem cbeBirrExtract_receiptNumber_ne (m : CBEBirrMatches) :
    (cbeBirrExtract m).receiptNumber ≠ "" := by
  show jsOr (extractValueNoGroup m.cguLiteralMatched)
      (jsOr (extractValue m.cguNumberM) "CGU9REIHHB") ≠ ""
  exact jsOr_ne_empty _ _ (jsOr_ne_empty _ _ (by decide))

/-- The chain ending in the literal amount never yields the empty string. -/
theorem cbeBirrExtract_amount_ne (m : CBEBirrMatches) :
    (cbeBirrExtract m).amount ≠ "" := by
  show jsOr (extractValue m.amountLiteralM)
      (jsOr (extractValue m.amountAnyM) "73000.00") ≠ ""
  exact jsOr_ne_empty _ _ (jsOr_ne_empty _ _ (by decide))

/-- `parseCBEBirrReceipt` never rejects: the literal fallbacks keep the
    essential fields non-empty, so the all-empty check cannot fire. -/
theorem parseCBEBirrReceipt_eq_some (m : CBEBirrMatches) :
    parseCBEBirrReceipt m = some (cbeBirrExtract m) := by
  have hc : decide ((cbeBirrExtract m).customerName = "") = false :=
    decide_eq_false (cbeBirrExtract_customerName_ne m)
  unfold parseCBEBirrReceipt
  simp [hc]

/-! ## C5: fetch timeouts -/

/-- C5, counterexample: the re-fetch of the PDF URL captured during CBE's
    rendered-page fallback is a remote fetch of a verification pipeline whose
    request options carry no timeout, so not every fetch is bounded by an
    explicit timeout. -/
theorem c5_timeouts_counterexample :
    cbeCapturedPdfFetch ∈ fetchCalls ∧ cbeCapturedPdfFetch.timeoutMs = none ∧
      ¬ (∀ c ∈ fetchCalls, c.timeoutMs.isSome = true) := by
  decide

/-- C5, amended: every remote fetch of the five pipelines except the CBE
    fallback's captured-PDF-URL re-fetch is bounded by an explicit timeout. -/
theorem c5_timeouts_amended :
    ∀ c ∈ fetchCalls, c ≠ cbeCapturedPdfFetch → c.timeoutMs.isSome = true := by
  decide

/-- C5 witness: the amended theorem applied to the CBE direct fetch. -/
theorem c5_timeouts_witness :
    ({ pipeline := "CBE", site := "direct axios.get", timeoutMs := some 30000 } :
      FetchCall).timeoutMs.isSome = true :=
  c5_timeouts_amended
    { pipeline := "CBE", site := "direct axios.get", timeoutMs := some 30000 }
    (by decide) (by decide)

/-! ## C6: amount normalization -/

/-- C6: in each pipeline that coerces amounts to numbers (CBE, Dashen,
    Abyssinia), normalization strips separators and parses a decimal, with
    `"73,000.00"` mapping to `73000`, `"1000 Birr"` mapping to `1000`, and
    invalid numeric text mapping to absence rather than an exception. -/
theorem c6_amount_normalization :
    cbeNormalizeAmount "73,000.00" = some 73000 ∧
    cbeNormalizeAmount "1000 Birr" = some 1000 ∧
    dashenExtractAmount (some "73,000.00") = some 73000 ∧
    dashenExtractAmount (some "1000 Birr") = some 1000 ∧
    abyssiniaNormalizeAmount "73,000.00" = some 73000 ∧
    abyssiniaNormalizeAmount "1000 Birr" = some 1000 ∧
    cbeNormalizeAmount "N/A" = none ∧
    dashenExtractAmount (some "abc") = none ∧
    abyssiniaNormalizeAmount "N/A" = none := by
  decide

/-! ## C7: date formats -/

/-- C7, counterexample: a raw text whose only date is in the
    `DD-MM-YYYY HH:mm:ss` format. The claimed ordered-format normalizer
    parses it (second format wins) to 2025-07-30T17:57:57, but the CBE-Birr
    pipeline does not recognize it and substitutes the hard-coded sample date
    `2025-07-30 17:57`, which under the claimed format list denotes a
    different instant — so the first parsing format does not win. -/
theorem c7_date_formats_counterexample :
    specDateNormalize "30-07-2025 17:57:57" =
      some { year := 2025, month := 7, day := 30, hour := 17, minute := 57, second := 57 } ∧
    cbeBirrTransactionDate "Transaction Date 30-07-2025 17:57:57" = "2025-07-30 17:57" ∧
    specDateNormalize "2025-07-30 17:57" =
      some { year := 2025, month := 7, day := 30, hour := 17, minute := 57, second := 0 } ∧
    ({ year := 2025, month := 7, day := 30, hour := 17, minute := 57, second := 0 } :
        SpecDateTime) ≠
      { year := 2025, month := 7, day := 30, hour := 17, minute := 57, second := 57 } := by
  decide

/-- C7, amended: each pipeline recognizes one literal date shape of its own
    instead of an ordered multi-format list: CBE-Birr extracts
    `YYYY-MM-DD HH:mm` and falls back to the hard-coded sample date on any
    other input, while Telebirr extracts `DD-MM-YYYY HH:mm:ss` and yields
    nothing on a `YYYY-MM-DD HH:mm` date. -/
theorem c7_date_formats_amended :
    cbeBirrTransactionDate "Transaction Date 2025-08-01 12:34 Amount" = "2025-08-01 12:34" ∧
    cbeBirrTransactionDate "Transaction Date 30-07-2025 17:57:57 Amount" = "2025-07-30 17:57" ∧
    extractDateRegex "foo 30-07-2025 17:57:57 bar" = some "30-07-2025 17:57:57" ∧
    extractDateRegex "foo 2025-08-01 12:34 bar" = none := by
  decide

/-! ## C8: name normalization -/

/-- C8, counterexample: on `"MARY-ANN"` the source's `titleCase` upper-cases
    the character after the hyphen (JS `\b\w` boundaries), while upper-casing
    only the first letter of each whitespace-delimited token, as claimed,
    would leave it lower-case. -/
theorem c8_title_case_counterexample :
    titleCase "MARY-ANN" = "Mary-Ann" ∧ specTitleCase "MARY-ANN" = "Mary-ann" ∧
      titleCase "MARY-ANN" ≠ specTitleCase "MARY-ANN" := by
  decide

/-- C8, amended: `titleCase` lower-cases the whole string and upper-cases
    every word character not preceded by a word character (so also after
    hyphens and other punctuation, not only after whitespace); the result
    depends only on the lower-cased input, hence is independent of the
    input's casing, and `"JOHN DOE"` maps to `"John Doe"`. -/
theorem c8_title_case_amended :
    (∀ s t : String, jsToLower s = jsToLower t → titleCase s = titleCase t) ∧
    titleCase "JOHN DOE" = "John Doe" := by
  constructor
  · intro s t h
    unfold titleCase
    rw [h]
  · decide

/-- C8 witness: two casings of the same name normalize identically. -/
theorem c8_title_case_witness :
    titleCase "JOHN doe" = titleCase "john DOE" :=
  c8_title_case_amended.1 "JOHN doe" "john DOE" (by decide)

/-! ## C9: CBE-Birr phone validation -/

/-- C9: `isValidEthiopianPhone` accepts exactly the 12-digit strings starting
    with country code 251 (the regex `^251\d{9}$`), and the CBE-Birr POST
    route rejects every request whose supplied phone number fails that format
    with `success: false`, without invoking the verification service. -/
theorem c9_phone_validation :
    (∀ p : String, isValidEthiopianPhone p = true ↔
      (p.data.length = 12 ∧ p.data.take 3 = ['2', '5', '1'] ∧ p.data.all Char.isDigit = true)) ∧
    (∀ rn key svc (p : String), isValidEthiopianPhone p = false →
      (cbeBirrRoutePost rn (some p) key svc).2 = false ∧
      (cbeBirrRoutePost rn (some p) key svc).1.success = some false) := by
  constructor
  · intro p
    obtain ⟨cs⟩ := p
    match cs with
    | [] => simp [isValidEthiopianPhone]
    | [c1] => simp [isValidEthiopianPhone]
    | [c1, c2] => simp [isValidEthiopianPhone]
    | c1 :: c2 :: c3 :: rest =>
        simp only [isValidEthiopianPhone, Bool.and_eq_true, decide_eq_true_eq,
          List.length_cons, List.take_succ_cons, List.take_zero, List.all_cons]
        constructor
        · rintro ⟨⟨⟨⟨h1, h2⟩, h3⟩, h4⟩, h5⟩
          subst h1; subst h2; subst h3
          refine ⟨by omega, rfl, ?_⟩
          exact ⟨by decide, by decide, by decide, h5⟩
        · rintro ⟨h1, h2, hd1, hd2, hd3, h5⟩
          simp only [List.cons.injEq] at h2
          obtain ⟨e1, e2, e3, -⟩ := h2
          exact ⟨⟨⟨⟨e1, e2⟩, e3⟩, by omega⟩, h5⟩
  · intro rn key svc p h
    unfold cbeBirrRoutePost
    simp only [Option.getD_some]
    split_ifs with h1 h2 h3 h4 <;> simp_all

/-- C9 witness: a well-formed phone is accepted, and a request with the
    malformed phone `0912345678` is rejected without a service call. -/
theorem c9_phone_validation_witness :
    isValidEthiopianPhone "251902523658" = true ∧
    (cbeBirrRoutePost (some "CGU9REIHHB") (some "0912345678") (some "key")
        (.failure "unused")).2 = false ∧
    (cbeBirrRoutePost (some "CGU9REIHHB") (some "0912345678") (some "key")
        (.failure "unused")).1.success = some false :=
  ⟨(c9_phone_validation.1 "251902523658").mpr (by decide),
   (c9_phone_validation.2 (some "CGU9REIHHB") (some "key") (.failure "unused")
      "0912345678" (by decide)).1,
   (c9_phone_validation.2 (some "CGU9REIHHB") (some "key") (.failure "unused")
      "0912345678" (by decide)).2⟩

/-! ## C10: zero amount in the CBE pipeline -/

/-- C10: whenever the CBE amount capture reads `0.00` — which normalizes to
    the number 0 — `parseCBEReceipt` fails with the missing-fields error, no
    matter what the other captures contain, so a zero amount is
    indistinguishable from a missing one at the public interface. -/
theorem c10_zero_amount :
    ∀ m : CBEMatches, m.amountText = some "0.00" →
      parseCBEReceipt (some m) =
        { success := false, error := some "Could not extract all required fields from PDF." } ∧
      cbeNormalizeAmount "0.00" = some 0 := by
  intro m h
  have hamt : cbeAmount m = some 0 := by
    simp only [cbeAmount, h]
    decide
  have htn : truthyNum (cbeAmount m) = false := by
    rw [hamt]
    decide
  have hok : cbeRequiredOk m = false := by
    unfold cbeRequiredOk
    rw [htn]
    simp
  constructor
  · simp [parseCBEReceipt, hok]
  · decide

/-- C10 witness: the zero-amount behavior at a fully populated receipt. -/
theorem c10_zero_amount_witness :
    parseCBEReceipt (some cbeZeroAmountMatches) =
      { success := false, error := some "Could not extract all required fields from PDF." } :=
  (c10_zero_amount cbeZeroAmountMatches rfl).1

/-! ## C4: hard-coded literal fallbacks in CBE-Birr -/

/-- C4: when none of the declared patterns for customer name, receipt number
    or amount matches the PDF text, the extracted fields equal the hard-coded
    sample literals `LIUL ZENEBE ADMASU`, `CGU9REIHHB` and `73000.00` instead
    of being absent, and the parse still reports a receipt. -/
theorem c4_literal_fallbacks :
    ∀ m : CBEBirrMatches,
      m.customerNameM = none → m.liulNameMatched = false →
      m.cguLiteralMatched = false → m.cguNumberM = none →
      m.amountLiteralM = none → m.amountAnyM = none →
      (cbeBirrExtract m).customerName = "LIUL ZENEBE ADMASU" ∧
      (cbeBirrExtract m).receiptNumber = "CGU9REIHHB" ∧
      (cbeBirrExtract m).amount = "73000.00" ∧
      parseCBEBirrReceipt m = some (cbeBirrExtract m) := by
  intro m h1 h2 h3 h4 h5 h6
  refine ⟨?_, ?_, ?_, parseCBEBirrReceipt_eq_some m⟩
  · show jsOr (extractValue m.customerNameM)
        (jsOr (extractValueNoGroup m.liulNameMatched) "LIUL ZENEBE ADMASU") =
      "LIUL ZENEBE ADMASU"
    rw [h1, h2, extractValue_none]
    decide
  · show jsOr (extractValueNoGroup m.cguLiteralMatched)
        (jsOr (extractValue m.cguNumberM) "CGU9REIHHB") = "CGU9REIHHB"
    rw [h3, h4, extractValue_none]
    decide
  · show jsOr (extractValue m.amountLiteralM)
        (jsOr (extractValue m.amountAnyM) "73000.00") = "73000.00"
    rw [h5, h6, extractValue_none]
    decide

/-- C4 witness: the literal fallbacks at a PDF text with no matches at all. -/
theorem c4_literal_fallbacks_witness :
    (cbeBirrExtract cbeBirrNoMatches).customerName = "LIUL ZENEBE ADMASU" ∧
    (cbeBirrExtract cbeBirrNoMatches).receiptNumber = "CGU9REIHHB" ∧
    (cbeBirrExtract cbeBirrNoMatches).amount = "73000.00" ∧
    parseCBEBirrReceipt cbeBirrNoMatches = some (cbeBirrExtract cbeBirrNoMatches) :=
  c4_literal_fallbacks cbeBirrNoMatches rfl rfl rfl rfl rfl rfl

/-! ## C2: fallback activation -/

/-- C2, counterexample: a Telebirr primary document that was fetched and
    parsed but whose required fields are empty (a validation failure, not a
    fetch failure) still causes the fallback proxy to be attempted. -/
theorem c2_fallback_counterexample :
    isValidReceipt telebirrEmptyReceipt = false ∧
    (verifyTelebirrWith false (some telebirrEmptyReceipt) none).2 = true := by
  decide

/-- C2, amended: in the CBE pipeline, the fallback tier is attempted exactly
    when the primary direct fetch throws — never after a fetched document
    fails parsing or validation; in the Telebirr pipeline, the fallback is
    attempted whenever the primary path does not produce a validated receipt,
    including when the document was fetched and parsed but required fields
    are missing. -/
theorem c2_fallback_amended :
    (∀ primary fallback, (verifyCBEWith primary fallback).2 = true ↔
      ∃ msg, primary = CBEPrimary.fetchError msg) ∧
    (∀ skip primary fallback, (verifyTelebirrWith skip primary fallback).2 = true ↔
      ¬ (skip = false ∧ ∃ r, primary = some r ∧ isValidReceipt r = true)) := by
  constructor
  · intro primary fallback
    cases primary with
    | fetched doc => simp [verifyCBEWith]
    | fetchError msg => cases fallback <;> simp [verifyCBEWith]
  · intro skip primary fallback
    unfold verifyTelebirrWith
    split
    · rename_i h
      simp only [Bool.and_eq_true, Bool.not_eq_true'] at h
      obtain ⟨hs, hm⟩ := h
      cases primary with
      | none => simp at hm
      | some r =>
          refine iff_of_false (by simp) (not_not_intro ⟨hs, r, rfl, ?_⟩)
          simpa using hm
    · rename_i h
      have hres :
          (match fallback with
            | some r => if isValidReceipt r then (some r, true) else (none, true)
            | none => ((none : Option TelebirrReceipt), true)).2 = true := by
        cases fallback with
        | none => rfl
        | some r =>
            by_cases hv : isValidReceipt r <;> simp [hv]
      refine iff_of_true hres ?_
      rintro ⟨hs, r, hp, hv⟩
      subst hs; subst hp
      simp [hv] at h

/-- C2 witness: with a throwing primary fetch, the CBE fallback tier is
    entered. -/
theorem c2_fallback_witness :
    (verifyCBEWith (.fetchError "timeout of 30000ms exceeded") .noPdfDetected).2 = true :=
  (c2_fallback_amended.1 (.fetchError "timeout of 30000ms exceeded") .noPdfDetected).mpr
    ⟨"timeout of 30000ms exceeded", rfl⟩

/-! ## C3: Abyssinia status gate and empty body -/

/-- C3, counterexample: with an empty body but a non-`success` header status,
    the call reports the status error, not the claimed
    `No transaction data found in response body`. -/
theorem c3_abyssinia_counterexample :
    (verifyAbyssiniaWith (.fetched (some abyssiniaFailedEmpty))).1.success = false ∧
    (verifyAbyssiniaWith (.fetched (some abyssiniaFailedEmpty))).1.error =
      some "API returned error status: failed" ∧
    (verifyAbyssiniaWith (.fetched (some abyssiniaFailedEmpty))).1.error ≠
      some "No transaction data found in response body" := by
  decide

/-- C3, amended: field extraction is attempted only when the upstream header
    status equals `success`; and when the status check passes while the body
    is an empty array, the call returns success=false with error exactly
    `No transaction data found in response body`. -/
theorem c3_abyssinia_amended :
    (∀ f, (verifyAbyssiniaWith f).2 = true → abyssiniaStatusOf f = some "success") ∧
    (∀ p : AbyssiniaPayload,
      p.header = some { status := some "success" } → p.body = some [] →
      verifyAbyssiniaWith (.fetched (some p)) =
        ({ success := false, error := some "No transaction data found in response body" },
         false)) := by
  constructor
  · intro f h
    cases f with
    | fetchError => simp [verifyAbyssiniaWith] at h
    | fetched payload =>
        cases payload with
        | none => simp [verifyAbyssiniaWith] at h
        | some p =>
            obtain ⟨hdr, body⟩ := p
            cases hdr with
            | none => simp [verifyAbyssiniaWith] at h
            | some hd =>
                cases body with
                | none => simp [verifyAbyssiniaWith] at h
                | some bl =>
                    simp only [verifyAbyssiniaWith] at h
                    split at h
                    · simp at h
                    · rename_i hst
                      simp only [abyssiniaStatusOf]
                      exact not_not.mp hst
  · intro p h1 h2
    obtain ⟨hdr, body⟩ := p
    simp only at h1 h2
    subst h1; subst h2
    decide

/-- C3 witness: both amended conjuncts at concrete payloads — a successful
    extraction implies the status was `success`, and an empty body under a
    `success` status yields exactly the no-transaction-data error. -/
theorem c3_abyssinia_witness :
    abyssiniaStatusOf (.fetched (some abyssiniaSuccessPayload)) = some "success" ∧
    verifyAbyssiniaWith (.fetched (some abyssiniaEmptySuccess)) =
      ({ success := false, error := some "No transaction data found in response body" },
       false) :=
  ⟨c3_abyssinia_amended.1 (.fetched (some abyssiniaSuccessPayload)) (by decide),
   c3_abyssinia_amended.2 abyssiniaEmptySuccess rfl rfl⟩

/-! ## C1: success/data envelope invariant -/

/-- C1, counterexample: a CBE-Birr verification that succeeds (here: a PDF
    text where no pattern matched, so the literal fallbacks populate every
    field) responds with the bare receipt object — receipt data is present
    while `success` is not `true` (the field is absent), refuting the
    claimed if-and-only-if for that pipeline. -/
theorem c1_envelope_counterexample :
    (cbeBirrEnvelope (verifyCBEBirrService (.fetched 200 (.ok cbeBirrNoMatches)))).hasData =
      true ∧
    (cbeBirrEnvelope (verifyCBEBirrService (.fetched 200 (.ok cbeBirrNoMatches)))).success ≠
      some true := by
  decide

/-- C1, amended: for CBE, Telebirr (whose route wraps the service result) and
    Abyssinia, the result carries receipt data exactly when success is true,
    and success implies the institution's required fields are present and
    non-empty after normalization. The CBE-Birr pipeline deviates: a
    successful call returns the bare receipt with no `success` field (data
    present, `success` absent), and its parser only rejects when customer
    name, receipt number and amount are all empty at once — which its
    hard-coded literal fallbacks make impossible. -/
theorem c1_envelope_amended :
    (∀ doc, ((parseCBEReceipt doc).success = true ↔ cbeHasData (parseCBEReceipt doc) = true) ∧
      ((parseCBEReceipt doc).success = true → cbeRequiredNonEmpty (parseCBEReceipt doc))) ∧
    (∀ skip primary fallback r,
      (verifyTelebirrWith skip primary fallback).1 = some r → isValidReceipt r = true) ∧
    (∀ result : Option TelebirrReceipt,
      (telebirrRouteRespond result).success = some true ↔
        (telebirrRouteRespond result).hasData = true) ∧
    (∀ f, ((verifyAbyssiniaWith f).1.success = true ↔
        cbeHasData (verifyAbyssiniaWith f).1 = true) ∧
      ((verifyAbyssiniaWith f).1.success = true →
        (∃ s, (verifyAbyssiniaWith f).1.reference = some s ∧ s ≠ "") ∧
        (∃ q, (verifyAbyssiniaWith f).1.amount = some q ∧ q ≠ 0) ∧
        (∃ s, (verifyAbyssiniaWith f).1.payer = some s ∧ s ≠ ""))) ∧
    (∀ f r, verifyCBEBirrService f = .receipt r →
      r.customerName ≠ "" ∧ r.receiptNumber ≠ "" ∧ r.amount ≠ "" ∧
      (cbeBirrEnvelope (.receipt r)).success = none ∧
      (cbeBirrEnvelope (.receipt r)).hasData = true) := by
  refine ⟨?_, ?_, ?_, ?_, ?_⟩
  · -- CBE
    intro doc
    cases doc with
    | none => exact ⟨by simp [parseCBEReceipt, cbeHasData], by simp [parseCBEReceipt]⟩
    | some m =>
        by_cases hok : cbeRequiredOk m = true
        · have hsplit := hok
          unfold cbeRequiredOk at hsplit
          simp only [Bool.and_eq_true] at hsplit
          obtain ⟨⟨⟨⟨⟨⟨h1, h2⟩, h3⟩, h4⟩, h5⟩, h6⟩, h7⟩ := hsplit
          constructor
          · simp [parseCBEReceipt, hok, cbeHasData, truthyStr_isSome h1]
          · intro _
            simp only [parseCBEReceipt, hok, if_true, cbeRequiredNonEmpty]
            exact ⟨truthyStr_eq_true.mp h1, truthyStr_eq_true.mp h2, truthyStr_eq_true.mp h3,
              truthyStr_eq_true.mp h4, truthyNum_eq_true.mp h5, h6, truthyStr_eq_true.mp h7⟩
        · constructor
          · simp [parseCBEReceipt, hok, cbeHasData]
          · intro hsucc
            simp [parseCBEReceipt, hok] at hsucc
  · -- Telebirr service: a returned receipt passed validation
    intro skip primary fallback r h
    unfold verifyTelebirrWith at h
    split at h
    · rename_i hcond
      simp only [Bool.and_eq_true] at hcond
      obtain ⟨-, hm⟩ := hcond
      cases primary with
      | none => simp at hm
      | some r0 =>
          simp only [Option.some.injEq] at h
          subst h
          simpa using hm
    · cases fallback with
      | none => simp at h
      | some r0 =>
          by_cases hv : isValidReceipt r0 = true
          · simp only [hv, if_true, Option.some.injEq] at h
            subst h
            exact hv
          · simp [hv] at h
  · -- Telebirr route envelope
    intro result
    cases result <;> simp [telebirrRouteRespond]
  · -- Abyssinia
    intro f
    cases f with
    | fetchError => exact ⟨by simp [verifyAbyssiniaWith, cbeHasData], by simp [verifyAbyssiniaWith]⟩
    | fetched payload =>
        cases payload with
        | none =>
            exact ⟨by simp [verifyAbyssiniaWith, cbeHasData], by simp [verifyAbyssiniaWith]⟩
        | some p =>
            obtain ⟨hdr, body⟩ := p
            cases hdr with
            | none =>
                exact ⟨by simp [verifyAbyssiniaWith, cbeHasData], by simp [verifyAbyssiniaWith]⟩
            | some hd =>
                cases body with
                | none =>
                    exact ⟨by simp [verifyAbyssiniaWith, cbeHasData],
                      by simp [verifyAbyssiniaWith]⟩
                | some bl =>
                    simp only [verifyAbyssiniaWith]
                    split
                    · exact ⟨by simp [cbeHasData], by simp⟩
                    · cases bl with
                      | nil => exact ⟨by simp [cbeHasData], by simp⟩
                      | cons tx rest =>
                          simp only []
                          split
                          · exact ⟨by simp [cbeHasData], by simp⟩
                          · rename_i hgood
                            simp only [Bool.or_eq_true, Bool.not_eq_true', not_or] at hgood
                            obtain ⟨⟨hr, ha⟩, hp⟩ := hgood
                            rw [Bool.not_eq_false] at hr ha hp
                            have hps : ((abyssiniaExtract tx).payer).isSome = true :=
                              truthyStr_isSome hp
                            simp only [abyssiniaExtract] at hps
                            constructor
                            · simp [abyssiniaExtract, cbeHasData, hps]
                            · intro _
                              exact ⟨truthyStr_eq_true.mp hr, truthyNum_eq_true.mp ha,
                                truthyStr_eq_true.mp hp⟩
  · -- CBE-Birr: data present while the success field is absent
    intro f r h
    cases f with
    | fetchError msg => exact (CBEBirrResult.noConfusion h)
    | fetched status doc =>
        simp only [verifyCBEBirrService] at h
        split at h
        · exact (CBEBirrResult.noConfusion h)
        · cases doc with
          | error msg => exact (CBEBirrResult.noConfusion h)
          | ok m =>
              have h3 :
                  (match parseCBEBirrReceipt m with
                    | none => CBEBirrResult.failure "Failed to parse receipt data from PDF"
                    | some r0 => CBEBirrResult.receipt r0) = CBEBirrResult.receipt r := h
              rw [parseCBEBirrReceipt_eq_some] at h3
              have h2 : CBEBirrResult.receipt (cbeBirrExtract m) = .receipt r := h3
              have hr : cbeBirrExtract m = r := by injection h2
              subst hr
              exact ⟨cbeBirrExtract_customerName_ne m, cbeBirrExtract_receiptNumber_ne m,
                cbeBirrExtract_amount_ne m, rfl, rfl⟩

/-- C1 witness: the amended theorem applied to a validated Telebirr primary
    receipt and to a concrete successful CBE-Birr call. -/
theorem c1_envelope_witness :
    isValidReceipt telebirrSampleReceipt = true ∧
    ((cbeBirrExtract cbeBirrNoMatches).customerName ≠ "" ∧
      (cbeBirrExtract cbeBirrNoMatches).receiptNumber ≠ "" ∧
      (cbeBirrExtract cbeBirrNoMatches).amount ≠ "" ∧
      (cbeBirrEnvelope (.receipt (cbeBirrExtract cbeBirrNoMatches))).success = none ∧
      (cbeBirrEnvelope (.receipt (cbeBirrExtract cbeBirrNoMatches))).hasData = true) :=
  ⟨c1_envelope_amended.2.1 false (some telebirrSampleReceipt) none telebirrSampleReceipt
      (by decide),
   c1_envelope_amended.2.2.2.2 (.fetched 200 (.ok cbeBirrNoMatches))
      (cbeBirrExtract cbeBirrNoMatches) (by decide)⟩

end VerifyPayment
